import Mathlib

/-!
Verification of the `orellavie1212/langchain` fragment:
`langchain/llms/vllm.py` (classes `VLLM` and `VLLMOpenAI`) and `setup.py`.

The Python code is shallowly embedded:

* Opaque Python objects that the adapter merely stores and passes along
  (`vllm_obj`, `vllm_sampling_params_obj`) are modelled by `PyObj`, a value
  with an identity tag and a truthiness bit, because the only operations the
  code applies to them are identity-preserving assignment and the implicit
  `bool(...)` coercion in `if not ...:` tests.
* Python dicts built by display/unpacking (`{**a, **b, "k": v}`) are modelled
  as association lists in insertion order, with a lookup in which a later
  binding shadows an earlier one — observationally the dict's lookup
  behaviour.
* Float-valued configuration fields are carried as rationals: the code never
  performs arithmetic on them, it only stores them into the parameter dict.
* Fallible code (a failed `import`, an out-of-range index, the `RuntimeError`
  of `find_version`) is modelled with `Except String`.
-/

/-- An opaque Python object as the adapter sees it: an identity tag (two
objects are the same object iff their tags are equal) and its truthiness
(the result of Python's `bool(...)` coercion, used by `if not ...:`). -/
structure PyObj where
  id : Nat
  truthy : Bool
deriving DecidableEq, Repr

/-- A Python value as it occurs in the parameter dicts of `vllm.py`. -/
inductive PyVal where
  | none
  | bool (b : Bool)
  | int (z : Int)
  | rat (q : ℚ)
  | str (s : String)
  | strList (l : List String)
  | obj (o : PyObj)
deriving DecidableEq, Repr

/-- A Python dict, as an association list in insertion order; a later binding
for the same key shadows an earlier one (see `dlookup`). -/
abbrev Dict : Type := List (String × PyVal)

/-- Dict lookup: the value of the LAST binding of `k`, mirroring the
behaviour of Python dict displays where `{**a, **b}` keeps `b`'s value on a
key collision. -/
def dlookup (k : String) : Dict → Option PyVal
  | [] => Option.none
  | (k', v) :: rest =>
    match dlookup k rest with
    | Option.some v' => Option.some v'
    | Option.none => if k' = k then Option.some v else Option.none

/-- The keys of a dict. -/
def dkeys (d : Dict) : List String := d.map (fun p => p.1)

/-- Truthiness of a Python `Optional[Any]` field: `None` is falsy, an object
is as truthy as `bool(obj)` says. This is exactly what `if not values["vllm_obj"]`
and `if not self.vllm_sampling_params_obj` test in `vllm.py`. -/
def pyOptTruthy : Option PyObj → Bool
  | Option.none => false
  | Option.some o => o.truthy

/-- The configuration fields of the `VLLM` pydantic model
(`langchain/llms/vllm.py`, lines 13-78), with the defaults of the source. -/
structure VLLMConfig where
  model : String := ""
  tensor_parallel_size : Option Int := Option.some 1
  trust_remote_code : Option Bool := Option.some false
  n : Int := 1
  best_of : Option Int := Option.none
  presence_penalty : ℚ := 0
  frequency_penalty : ℚ := 0
  temperature : ℚ := 1
  top_p : ℚ := 1
  top_k : Int := -1
  use_beam_search : Bool := false
  stop : Option (List String) := Option.none
  ignore_eos : Bool := false
  max_new_tokens : Int := 512
  logprobs : Option Int := Option.none
  dtype : String := "auto"
  download_dir : Option String := Option.none
  vllm_obj : Option PyObj := Option.none
  vllm_sampling_params_obj : Option PyObj := Option.none
  vllm_kwargs : Dict := []
deriving DecidableEq, Repr

/-- The client held by a validated `VLLM` instance: either the pre-built
object adopted from `vllm_obj`, or a fresh `vllm.LLM(...)` constructed from
the listed configuration fields (lines 92-99 of `vllm.py`). -/
inductive Client where
  | supplied (o : PyObj)
  | constructed (model : String) (tensor_parallel_size : Option Int)
      (trust_remote_code : Option Bool) (dtype : String)
      (download_dir : Option String) (kwargs : Dict)
deriving DecidableEq, Repr

/-- The fresh client `VLLModel(model=..., tensor_parallel_size=...,
trust_remote_code=..., dtype=..., download_dir=..., **vllm_kwargs)`. -/
def constructedClient (cfg : VLLMConfig) : Client :=
  Client.constructed cfg.model cfg.tensor_parallel_size cfg.trust_remote_code
    cfg.dtype cfg.download_dir cfg.vllm_kwargs

/-- The error message raised when the `vllm` package cannot be imported. -/
def importErrMsg : String :=
  "Could not import vllm python package. Please install it with `pip install vllm`."

/-- `VLLM.validate_environment` (lines 80-103): first attempts to import the
`vllm` package (`importable` says whether that import succeeds), raising
`ImportError` when it does not; then, if `vllm_obj` is falsy, constructs a
fresh client from the configuration fields, else adopts `vllm_obj` as the
client. Returns the resulting `client` value. -/
def validate_environment (importable : Bool) (cfg : VLLMConfig) : Except String Client :=
  if !importable then Except.error importErrMsg
  else if !pyOptTruthy cfg.vllm_obj then Except.ok (constructedClient cfg)
  else
    match cfg.vllm_obj with
    | Option.some o => Except.ok (Client.supplied o)
    | Option.none => Except.ok (constructedClient cfg)

/-- `VLLM._default_params` (lines 105-121): the per-call parameter dict built
from the configuration fields, in the source's key order. A `None`-valued
optional field is carried as Python `None`. -/
def default_params (cfg : VLLMConfig) : Dict :=
  [("n", PyVal.int cfg.n),
   ("best_of", match cfg.best_of with
     | Option.some z => PyVal.int z
     | Option.none => PyVal.none),
   ("max_tokens", PyVal.int cfg.max_new_tokens),
   ("top_k", PyVal.int cfg.top_k),
   ("top_p", PyVal.rat cfg.top_p),
   ("temperature", PyVal.rat cfg.temperature),
   ("presence_penalty", PyVal.rat cfg.presence_penalty),
   ("frequency_penalty", PyVal.rat cfg.frequency_penalty),
   ("stop", match cfg.stop with
     | Option.some l => PyVal.strList l
     | Option.none => PyVal.none),
   ("ignore_eos", PyVal.bool cfg.ignore_eos),
   ("use_beam_search", PyVal.bool cfg.use_beam_search),
   ("logprobs", match cfg.logprobs with
     | Option.some z => PyVal.int z
     | Option.none => PyVal.none)]

/-- The per-call `stop` argument as the dict value it is stored under
`"stop"`: Python `None` or the list itself. -/
def stopVal : Option (List String) → PyVal
  | Option.none => PyVal.none
  | Option.some l => PyVal.strList l

/-- The dict `{**self._default_params, **kwargs, "stop": stop}` of line 135:
defaults first, then the per-call keyword options, then the literal `"stop"`
entry; under `dlookup` a later binding wins, as in the Python dict display. -/
def merged_params (cfg : VLLMConfig) (stop : Option (List String)) (kwargs : Dict) : Dict :=
  default_params cfg ++ kwargs ++ [("stop", stopVal stop)]

/-- The sampling parameters handed to `self.client.generate`: either
`SamplingParams(**params)` built from the merged dict, or the pre-built
`vllm_sampling_params_obj` passed through. -/
inductive SParams where
  | fromDict (d : Dict)
  | prebuilt (o : PyObj)
deriving DecidableEq, Repr

/-- Whether the resolved sampling parameters are a passed-through pre-built
object. -/
def SParams.isPrebuilt : SParams → Bool
  | SParams.prebuilt _ => true
  | SParams.fromDict _ => false

/-- Lines 132-138 of `VLLM._generate`: if `vllm_sampling_params_obj` is falsy
the sampling parameters are built by merging (`merged_params`), else the
pre-built object is used as is. -/
def resolvedParams (cfg : VLLMConfig) (stop : Option (List String)) (kwargs : Dict) : SParams :=
  if !pyOptTruthy cfg.vllm_sampling_params_obj then
    SParams.fromDict (merged_params cfg stop kwargs)
  else
    match cfg.vllm_sampling_params_obj with
    | Option.some o => SParams.prebuilt o
    | Option.none => SParams.fromDict (merged_params cfg stop kwargs)

/-- One candidate completion of the engine (`output.outputs[i]`), exposing
its generated text. -/
structure CompletionOutput where
  text : String
deriving DecidableEq, Repr

/-- One output unit of `client.generate`, one per input prompt, carrying the
candidate completions the engine produced for that prompt. -/
structure RequestOutput where
  outputs : List CompletionOutput
deriving DecidableEq, Repr

/-- `langchain.schema.output.Generation`: one surfaced candidate text. -/
structure Generation where
  text : String
deriving DecidableEq, Repr

/-- `langchain.schema.output.LLMResult`: one generation group per prompt. -/
structure LLMResult where
  generations : List (List Generation)
deriving DecidableEq, Repr

/-- The loop of lines 142-145: for each output, take `output.outputs[0].text`
and wrap it as a single-candidate group; an output with no candidate makes
the Python code raise `IndexError`. -/
def extractGenerations : List RequestOutput → Except String (List (List Generation))
  | [] => Except.ok []
  | o :: rest =>
    match o.outputs with
    | [] => Except.error "IndexError: list index out of range"
    | c :: _ =>
      match extractGenerations rest with
      | Except.ok gs => Except.ok ([Generation.mk c.text] :: gs)
      | Except.error e => Except.error e

/-- `VLLM._generate` (lines 123-147), with the opaque client's generation
entry point abstracted as `clientGen`: resolve the sampling parameters,
invoke the client on the whole prompt batch, and reshape the outputs into
an `LLMResult`. -/
def generate (cfg : VLLMConfig)
    (clientGen : List String → SParams → List RequestOutput)
    (prompts : List String) (stop : Option (List String)) (kwargs : Dict) :
    Except String LLMResult :=
  match extractGenerations (clientGen prompts (resolvedParams cfg stop kwargs)) with
  | Except.ok gens => Except.ok (LLMResult.mk gens)
  | Except.error e => Except.error e

/-- `VLLM._llm_type` (lines 149-152). -/
def llm_type : String := "vllm"

/-- The configuration of `VLLMOpenAI` (lines 155-176). The credential fields
and the model name are fields of the `BaseOpenAI` base class; the inherited
sampling defaults are kept abstract.

`base_default_params` is Modelled from the spec: `BaseOpenAI._default_params`
(from `langchain/llms/openai.py`, which is not part of this fragment) is "all
inherited sampling defaults", an arbitrary parameter mapping that may or may
not already bind `logit_bias`. -/
structure VLLMOpenAIConfig where
  model_name : String
  openai_api_key : PyVal
  openai_api_base : PyVal
  base_default_params : Dict
deriving DecidableEq, Repr

/-- `VLLMOpenAI._invocation_params` (lines 158-171): the dict
`{"model": self.model_name, **openai_creds, **self._default_params,
"logit_bias": None}` where `openai_creds` binds `api_key` and `api_base`. -/
def invocation_params (c : VLLMOpenAIConfig) : Dict :=
  [("model", PyVal.str c.model_name)]
    ++ [("api_key", c.openai_api_key), ("api_base", c.openai_api_base)]
    ++ c.base_default_params
    ++ [("logit_bias", PyVal.none)]

/-- `VLLMOpenAI._llm_type` (lines 173-176). -/
def openai_llm_type : String := "vllm-openai"

/-! ## `setup.py` -/

/-- The single-quote character, written by code point to keep the source
free of quote-escape noise. -/
def squote : Char := Char.ofNat 39

/-- The double-quote character. -/
def dquote : Char := Char.ofNat 34

/-- Whether a character is one of the two Python quote characters of the
character class `['\"]` in `find_version`'s regex. -/
def isQuote (c : Char) : Bool := c = squote || c = dquote

/-- Strip an expected literal prefix from a character list, or fail. -/
def dropLit : List Char → List Char → Option (List Char)
  | [], s => Option.some s
  | _ :: _, [] => Option.none
  | c :: cs, d :: ds => if c = d then dropLit cs ds else Option.none

/-- The regex `^__version__ = ['\"]([^'\"]*)['\"]` of `find_version`
(`setup.py` lines 15-25) attempted at ONE anchor position, `s` being the
whole remaining contents from that position on: after the literal
`__version__ = ` and an opening quote, the greedy negated class `[^'\"]*`
consumes every following character that is not a quote — INCLUDING newlines,
which a negated character class accepts — and a closing quote (of either
kind, possibly mismatched) must follow; text after it is ignored, the regex
being used with `re.search`. Greediness is unambiguous here: a shorter run
would have to be followed by a quote, yet every character the greedy run
gives back is a non-quote, so the capture is exactly the text between the
opening quote and the next quote anywhere in the remaining contents, even
past line ends. Returns the captured group. -/
def matchVersionAt (s : List Char) : Option (List Char) :=
  match dropLit ("__version__ = ".data) s with
  | Option.none => Option.none
  | Option.some rest =>
    match rest with
    | [] => Option.none
    | q :: rest2 =>
      if isQuote q then
        match rest2.dropWhile (fun c => !isQuote c) with
        | [] => Option.none
        | _ :: _ => Option.some (rest2.takeWhile (fun c => !isQuote c))
      else Option.none

/-- The suffixes of the contents that begin right after a newline, in
left-to-right order: with `re.M`, these are the anchor positions of `^`
other than the very start of the string. -/
def anchorTails : List Char → List (List Char)
  | [] => []
  | c :: rest => (if c = '\n' then [rest] else []) ++ anchorTails rest

/-- Every anchor position of `^` under `re.M`, as the suffix of the contents
it starts: the whole contents (position 0) and then each position following
a newline, in left-to-right order. -/
def allAnchors (s : List Char) : List (List Char) := s :: anchorTails s

/-- The lines of the contents: the maximal newline-free segments, used to
relate the contents to its line list. -/
def splitLines : List Char → List (List Char)
  | [] => [[]]
  | c :: rest =>
    if c = '\n' then [] :: splitLines rest
    else
      match splitLines rest with
      | l :: ls => (c :: l) :: ls
      | [] => [[c]]

/-- `re.search` of the version regex over the contents: scan left to right,
attempting `matchVersionAt` at each `^`-anchor position (`anchor` says
whether the current position is one: the start, or just after a newline);
the first anchored match is the leftmost match, because every match of the
`^`-anchored pattern starts at an anchor and the match at a given anchor is
unique. -/
def searchVersion : List Char → Bool → Option (List Char)
  | [], _ => Option.none
  | c :: rest, anchor =>
    if anchor then
      match matchVersionAt (c :: rest) with
      | Option.some v => Option.some v
      | Option.none => searchVersion rest (c = '\n')
    else searchVersion rest (c = '\n')

/-- The message of the `RuntimeError` raised by `find_version`. -/
def noVersionMsg : String := "Unable to find version string."

/-- `find_version` (`setup.py` lines 15-25) on the contents of the
designated file: `re.search` the multiline-anchored version regex over the
whole contents and return the captured group of the leftmost match — a
match anchors at a line start but may span lines — or raise `RuntimeError`
when the pattern matches at no anchor. -/
def find_version (contents : String) : Except String String :=
  match searchVersion contents.data true with
  | Option.some v => Except.ok (String.mk v)
  | Option.none => Except.error noVersionMsg

/-- The metadata named in the `setuptools.setup(...)` call of `setup.py`
(lines 40-58) that the claims inspect. -/
structure SetupArgs where
  name : String
  version : String
  author : String
  license : String
deriving DecidableEq, Repr

/-- The `setuptools.setup(...)` call (`setup.py` lines 40-58) as a function
of the contents of the version-bearing source file. The source passes the
literal string `"0.0.305"` as `version`; the `find_version(...)` call next to
it is commented out (line 42), so the registered version does not depend on
the file at all. -/
def setupArgs (_versionFile : List String) : SetupArgs :=
  { name := "langchain"
    version := "0.0.305"
    author := "Orel Team"
    license := "Apache 2.0" }

/-- The version string the packaging tool registers, for a given contents of
the version-bearing file. -/
def registeredVersion (versionFile : List String) : String :=
  (setupArgs versionFile).version

/-- The single-candidate generation group the loop of lines 142-145 makes
from one output unit: the first candidate's text, or nothing when the engine
returned no candidate (the case where Python raises `IndexError`). -/
def firstGroup (o : RequestOutput) : Option (List Generation) :=
  o.outputs.head?.map (fun c => [Generation.mk c.text])

/-- A concrete client for the witnesses: echoes each prompt back as the
single candidate of its output unit. -/
def echoClient (prompts : List String) (_sp : SParams) : List RequestOutput :=
  prompts.map (fun p => RequestOutput.mk [CompletionOutput.mk p])

/-- The concrete `VLLMOpenAI` configuration used by the C6 witness: its
inherited defaults carry a NON-`None` `logit_bias` and a `temperature`. -/
def wOpenAICfg : VLLMOpenAIConfig where
  model_name := "m"
  openai_api_key := PyVal.str "k"
  openai_api_base := PyVal.str "b"
  base_default_params := [("temperature", PyVal.rat 1), ("logit_bias", PyVal.int 5)]

/-! ## Helper lemmas -/

/-- Looking a key up in an appended dict first consults the later (right)
part; the earlier part is consulted only when the later part lacks the key. -/
theorem dlookup_append (k : String) (xs ys : Dict) :
    dlookup k (xs ++ ys) =
      match dlookup k ys with
      | Option.some v => Option.some v
      | Option.none => dlookup k xs := by
  induction xs with
  | nil =>
    cases h : dlookup k ys <;> simp [dlookup, h]
  | cons p xs ih =>
    obtain ⟨k', v⟩ := p
    show dlookup k ((k', v) :: (xs ++ ys)) = _
    rw [dlookup, ih]
    cases h : dlookup k ys <;> cases h2 : dlookup k xs <;> simp [dlookup, h, h2]

/-- A final binding of `k` wins the lookup. -/
theorem dlookup_last (k : String) (xs : Dict) (v : PyVal) :
    dlookup k (xs ++ [(k, v)]) = Option.some v := by
  rw [dlookup_append]
  simp [dlookup]

/-- A key absent from a dict looks up to nothing. -/
theorem dlookup_eq_none_of_not_mem (k : String) (d : Dict) (h : k ∉ dkeys d) :
    dlookup k d = Option.none := by
  induction d with
  | nil => rfl
  | cons p d ih =>
    obtain ⟨k', v⟩ := p
    simp only [dkeys, List.map_cons, List.mem_cons, not_or] at h
    rw [dlookup, ih (by simpa [dkeys] using h.2)]
    exact if_neg (fun hk => h.1 hk.symm)

/-- A key present in a dict looks up to something. -/
theorem dlookup_isSome_of_mem (k : String) (d : Dict) (h : k ∈ dkeys d) :
    (dlookup k d).isSome = true := by
  induction d with
  | nil => simp [dkeys] at h
  | cons p d ih =>
    obtain ⟨k', v⟩ := p
    simp only [dkeys, List.map_cons, List.mem_cons] at h
    rw [dlookup]
    cases hd : dlookup k d with
    | some v' => rfl
    | none =>
      rcases h with h | h
      · simp [h]
      · have := ih (by simpa [dkeys] using h)
        rw [hd] at this
        simp at this

/-- When extraction succeeds, it returns one group per output unit, in
order, each group being `firstGroup` of the corresponding output. -/
theorem extract_ok_spec (outs : List RequestOutput) (gens : List (List Generation))
    (h : extractGenerations outs = Except.ok gens) :
    gens.length = outs.length ∧
      ∀ i : Nat, gens[i]? = Option.bind outs[i]? firstGroup := by
  induction outs generalizing gens with
  | nil =>
    simp only [extractGenerations, Except.ok.injEq] at h
    subst h
    simp
  | cons o rest ih =>
    rw [extractGenerations] at h
    cases ho : o.outputs with
    | nil => rw [ho] at h; exact absurd h (by simp)
    | cons c cs =>
      rw [ho] at h
      cases hr : extractGenerations rest with
      | error e => rw [hr] at h; exact absurd h (by simp)
      | ok gs =>
        rw [hr] at h
        simp only [Except.ok.injEq] at h
        subst h
        obtain ⟨hlen, hpt⟩ := ih gs hr
        refine ⟨by simp [hlen], ?_⟩
        intro i
        cases i with
        | zero => simp [firstGroup, ho]
        | succ j => simpa using hpt j

/-- Extraction succeeds whenever every output unit has at least one
candidate. -/
theorem extract_ok_exists (outs : List RequestOutput)
    (h : ∀ o ∈ outs, o.outputs ≠ []) :
    ∃ gens, extractGenerations outs = Except.ok gens := by
  induction outs with
  | nil => exact ⟨[], rfl⟩
  | cons o rest ih =>
    obtain ⟨gs, hgs⟩ := ih (fun x hx => h x (List.mem_cons_of_mem o hx))
    have ho : o.outputs ≠ [] := h o (List.mem_cons_self o rest)
    cases hc : o.outputs with
    | nil => exact absurd hc ho
    | cons c cs =>
      exact ⟨[Generation.mk c.text] :: gs, by rw [extractGenerations, hc, hgs]⟩

/-- The left-to-right anchored scan of `searchVersion` tries exactly the
anchor suffixes, in order: with the anchor flag set it is the first match
over `allAnchors`, with it clear the first match over `anchorTails`. -/
theorem searchVersion_spec (s : List Char) :
    searchVersion s true = (allAnchors s).findSome? matchVersionAt
    ∧ searchVersion s false = (anchorTails s).findSome? matchVersionAt := by
  induction s with
  | nil => exact ⟨rfl, rfl⟩
  | cons c rest ih =>
    have htails : (anchorTails (c :: rest)).findSome? matchVersionAt
        = searchVersion rest (decide (c = '\n')) := by
      by_cases hc : c = '\n'
      · rw [anchorTails, if_pos hc, decide_eq_true hc]
        rw [show ([rest] ++ anchorTails rest : List (List Char)) = allAnchors rest from rfl]
        exact (ih.1).symm
      · rw [anchorTails, if_neg hc, decide_eq_false hc, List.nil_append]
        exact (ih.2).symm
    constructor
    · rw [allAnchors, List.findSome?_cons]
      cases hm : matchVersionAt (c :: rest) with
      | some v => simp [searchVersion, hm]
      | none => simp only [searchVersion, hm, if_true, htails]
    · rw [show searchVersion (c :: rest) false = searchVersion rest (decide (c = '\n')) from rfl]
      exact htails.symm

/-- When `find?` singles out the first anchor suffix the pattern matches,
the first match over the whole list is the match at that suffix. -/
theorem findSome?_of_find? (l : List (List Char)) (t : List Char)
    (h : l.find? (fun u => (matchVersionAt u).isSome) = Option.some t) :
    l.findSome? matchVersionAt = matchVersionAt t := by
  induction l with
  | nil => simp at h
  | cons s rest ih =>
    rw [List.findSome?_cons]
    cases hs : matchVersionAt s with
    | some v =>
      have hst : s = t := by
        rw [List.find?_cons_of_pos _ (by simp [hs])] at h
        simpa using h
      subst hst
      rw [hs]
    | none =>
      rw [List.find?_cons_of_neg _ (by simp [hs])] at h
      exact ih h

/-- `dlookup_append` stated through `Option.or`, convenient for chains of
appends. -/
theorem dlookup_append_or (k : String) (xs ys : Dict) :
    dlookup k (xs ++ ys) = Option.or (dlookup k ys) (dlookup k xs) := by
  rw [dlookup_append]
  cases dlookup k ys <;> rfl

/-- A successful extraction certifies that every output unit had at least
one candidate. -/
theorem extract_ok_nonempty (outs : List RequestOutput) (gens : List (List Generation))
    (h : extractGenerations outs = Except.ok gens) :
    ∀ o ∈ outs, o.outputs ≠ [] := by
  induction outs generalizing gens with
  | nil => intro o ho; simp at ho
  | cons o rest ih =>
    intro x hx
    rw [extractGenerations] at h
    cases ho : o.outputs with
    | nil => rw [ho] at h; exact absurd h (by simp)
    | cons c cs =>
      rw [ho] at h
      cases hr : extractGenerations rest with
      | error e => rw [hr] at h; exact absurd h (by simp)
      | ok gs =>
        rcases List.mem_cons.mp hx with hx | hx
        · rw [hx, ho]; simp
        · exact ih gs hr x hx

/-! ## Claim theorems -/

/-- C1, counterexample: the claim that construction with a pre-supplied
client "does not attempt to import the external engine package" is false —
with `vllm_obj` supplied and the `vllm` import failing, `validate_environment`
raises `ImportError` instead of reusing the object, because the import is
attempted before the `vllm_obj` check. -/
theorem validate_env_imports_despite_prebuilt_client :
    validate_environment false { vllm_obj := Option.some ⟨1, true⟩ } = Except.error importErrMsg
    ∧ validate_environment false { vllm_obj := Option.some ⟨1, true⟩ }
        ≠ Except.ok (Client.supplied ⟨1, true⟩) := by
  have h1 : validate_environment false ({ vllm_obj := Option.some ⟨1, true⟩ } : VLLMConfig)
      = Except.error importErrMsg := rfl
  refine ⟨h1, ?_⟩
  rw [h1]
  intro h
  exact Except.noConfusion h

/-- C1, amended: when a truthy pre-built client object is supplied AND the
`vllm` package import succeeds, `validate_environment` adopts that exact
object as the client (identity-preserving) and constructs no new client; the
package import itself is still always attempted. -/
theorem prebuilt_client_reused (cfg : VLLMConfig) (o : PyObj)
    (hobj : cfg.vllm_obj = Option.some o) (ht : o.truthy = true) :
    validate_environment true cfg = Except.ok (Client.supplied o) := by
  simp [validate_environment, hobj, pyOptTruthy, ht]

/-- C1, witness for the amended theorem at a concrete configuration. -/
theorem prebuilt_client_reused_witness :
    validate_environment true { vllm_obj := Option.some ⟨7, true⟩ }
      = Except.ok (Client.supplied ⟨7, true⟩) :=
  prebuilt_client_reused { vllm_obj := Option.some ⟨7, true⟩ } ⟨7, true⟩ rfl rfl

/-- C2, counterexample: the registered version is NOT the result of
regex-extracting `__version__` from the designated file. On the one-line
file declaring version `1.2.3` (given both as its contents and as its line
list, tied together by `splitLines`), `find_version` extracts `"1.2.3"`, yet
the `setup(...)` call registers the literal `"0.0.305"`. -/
theorem setup_version_ignores_version_file :
    registeredVersion ["__version__ = \"1.2.3\""] = "0.0.305"
    ∧ find_version "__version__ = \"1.2.3\"" = Except.ok "1.2.3"
    ∧ splitLines ("__version__ = \"1.2.3\"").data = [("__version__ = \"1.2.3\"").data]
    ∧ registeredVersion ["__version__ = \"1.2.3\""] ≠ "1.2.3" := by
  exact ⟨rfl, rfl, by decide, by decide⟩

/-- C2, amended: the `setuptools.setup` call registers the fixed literal
version string `"0.0.305"`, independent of the contents of the version file;
the `find_version(...)` call is commented out in the source. -/
theorem setup_version_is_literal (f : List String) : registeredVersion f = "0.0.305" := rfl

/-- C3 (confirmed): in a call with an explicit stop override and no
pre-built sampling-params object, the resolved sampling parameters are built
by merging, and their `"stop"` entry is exactly the override — whatever the
configuration's default stop list and whatever other keyword options were
merged in (even a conflicting `"stop"` keyword). -/
theorem stop_override_wins (cfg : VLLMConfig) (kwargs : Dict) (ss : List String)
    (hno : cfg.vllm_sampling_params_obj = Option.none) :
    resolvedParams cfg (Option.some ss) kwargs
        = SParams.fromDict (merged_params cfg (Option.some ss) kwargs)
    ∧ dlookup "stop" (merged_params cfg (Option.some ss) kwargs)
        = Option.some (PyVal.strList ss) := by
  constructor
  · simp [resolvedParams, hno, pyOptTruthy]
  · exact dlookup_last "stop" (default_params cfg ++ kwargs) (PyVal.strList ss)

/-- C3, witness: a configuration with a default stop list and a call whose
keyword options even carry a conflicting `"stop"` binding; the override still
wins. -/
theorem stop_override_wins_witness :
    resolvedParams { stop := Option.some ["</s>"] } (Option.some ["x"])
        [("stop", PyVal.strList ["y"])]
      = SParams.fromDict (merged_params { stop := Option.some ["</s>"] }
          (Option.some ["x"]) [("stop", PyVal.strList ["y"])])
    ∧ dlookup "stop" (merged_params { stop := Option.some ["</s>"] }
          (Option.some ["x"]) [("stop", PyVal.strList ["y"])])
      = Option.some (PyVal.strList ["x"]) :=
  stop_override_wins { stop := Option.some ["</s>"] } [("stop", PyVal.strList ["y"])] ["x"] rfl

/-- C9 (confirmed, implicit claim): in a call with `stop = None` and no
pre-built sampling-params object, the `"stop"` entry of the resolved
parameters is Python `None`, even when the configuration's default stop list
is non-empty: the per-call value replaces the configured default
unconditionally. -/
theorem stop_none_replaces_default (cfg : VLLMConfig) (kwargs : Dict)
    (hno : cfg.vllm_sampling_params_obj = Option.none) :
    resolvedParams cfg Option.none kwargs
        = SParams.fromDict (merged_params cfg Option.none kwargs)
    ∧ dlookup "stop" (merged_params cfg Option.none kwargs) = Option.some PyVal.none := by
  constructor
  · simp [resolvedParams, hno, pyOptTruthy]
  · exact dlookup_last "stop" (default_params cfg ++ kwargs) PyVal.none

/-- C9, witness: concrete configuration whose default stop list is
non-empty; the resolved `"stop"` entry is nevertheless `None`. -/
theorem stop_none_replaces_default_witness :
    resolvedParams { stop := Option.some ["</s>", "EOS"] } Option.none []
        = SParams.fromDict (merged_params { stop := Option.some ["</s>", "EOS"] } Option.none [])
    ∧ dlookup "stop" (merged_params { stop := Option.some ["</s>", "EOS"] } Option.none [])
        = Option.some PyVal.none :=
  stop_none_replaces_default { stop := Option.some ["</s>", "EOS"] } [] rfl

/-- C4 (confirmed): assuming the client returns one output unit per input
prompt in input order, `generate` on `N` prompts succeeds with exactly `N`
generation groups, where group `i` is derived from output unit `i` (and thus
corresponds to input prompt `i`). -/
theorem generate_preserves_batch (cfg : VLLMConfig)
    (clientGen : List String → SParams → List RequestOutput)
    (prompts : List String) (stop : Option (List String)) (kwargs : Dict)
    (hlen : (clientGen prompts (resolvedParams cfg stop kwargs)).length = prompts.length)
    (hne : ∀ o ∈ clientGen prompts (resolvedParams cfg stop kwargs), o.outputs ≠ []) :
    ∃ res : LLMResult, generate cfg clientGen prompts stop kwargs = Except.ok res
      ∧ res.generations.length = prompts.length
      ∧ ∀ i : Nat, res.generations[i]? =
          Option.bind (clientGen prompts (resolvedParams cfg stop kwargs))[i]? firstGroup := by
  obtain ⟨gens, hgens⟩ := extract_ok_exists _ hne
  obtain ⟨hl, hpt⟩ := extract_ok_spec _ _ hgens
  refine ⟨LLMResult.mk gens, ?_, hl.trans hlen, hpt⟩
  rw [generate, hgens]

/-- C4, witness: a two-prompt batch against the echoing client. -/
theorem generate_preserves_batch_witness :
    ∃ res : LLMResult, generate {} echoClient ["a", "b"] Option.none [] = Except.ok res
      ∧ res.generations.length = (["a", "b"] : List String).length
      ∧ ∀ i : Nat, res.generations[i]? =
          Option.bind (echoClient ["a", "b"] (resolvedParams {} Option.none []))[i]? firstGroup :=
  generate_preserves_batch {} echoClient ["a", "b"] Option.none [] rfl (by decide)

/-- C5 (confirmed): whenever `generate` succeeds, the generation group at
position `i` contains exactly one candidate, whose text is the text of the
FIRST candidate of the engine's output unit `i`, however many candidates
that unit carries. -/
theorem generate_group_first_candidate (cfg : VLLMConfig)
    (clientGen : List String → SParams → List RequestOutput)
    (prompts : List String) (stop : Option (List String)) (kwargs : Dict)
    (res : LLMResult) (i : Nat) (o : RequestOutput)
    (hok : generate cfg clientGen prompts stop kwargs = Except.ok res)
    (ho : (clientGen prompts (resolvedParams cfg stop kwargs))[i]? = Option.some o) :
    ∃ c : CompletionOutput, o.outputs.head? = Option.some c
      ∧ res.generations[i]? = Option.some [Generation.mk c.text] := by
  rw [generate] at hok
  cases hg : extractGenerations (clientGen prompts (resolvedParams cfg stop kwargs)) with
  | error e => rw [hg] at hok; exact absurd hok (by simp)
  | ok gens =>
    rw [hg] at hok
    simp only [Except.ok.injEq] at hok
    obtain ⟨hl, hpt⟩ := extract_ok_spec _ _ hg
    have hoo : o.outputs ≠ [] :=
      extract_ok_nonempty _ _ hg o (List.getElem?_mem ho)
    cases hc : o.outputs with
    | nil => exact absurd hc hoo
    | cons c cs =>
      refine ⟨c, rfl, ?_⟩
      rw [← hok]
      have := hpt i
      rw [ho] at this
      simpa [firstGroup, hc] using this

/-- C5, witness: an engine output with THREE candidates for the single
prompt; the surfaced group holds exactly the first candidate's text. -/
theorem generate_group_first_candidate_witness :
    ∃ c : CompletionOutput,
      (RequestOutput.mk [⟨"one"⟩, ⟨"two"⟩, ⟨"three"⟩]).outputs.head? = Option.some c
      ∧ (LLMResult.mk [[Generation.mk "one"]]).generations[0]? = Option.some [Generation.mk c.text] :=
  generate_group_first_candidate {}
    (fun _ _ => [RequestOutput.mk [⟨"one"⟩, ⟨"two"⟩, ⟨"three"⟩]]) ["p"] Option.none []
    (LLMResult.mk [[Generation.mk "one"]]) 0 (RequestOutput.mk [⟨"one"⟩, ⟨"two"⟩, ⟨"three"⟩])
    rfl rfl

/-- C8, counterexample: with a falsy (but configured) pre-built
sampling-params object — for example the Python value `0` in the
`Optional[Any]` field — `_generate` does NOT pass the object through: the
`if not self.vllm_sampling_params_obj` test sends it down the field-merging
branch. -/
theorem falsy_sampling_params_not_passed_through :
    (resolvedParams { vllm_sampling_params_obj := Option.some ⟨2, false⟩ }
        Option.none []).isPrebuilt = false
    ∧ resolvedParams { vllm_sampling_params_obj := Option.some ⟨2, false⟩ } Option.none []
        ≠ SParams.prebuilt ⟨2, false⟩ := by
  have h1 : resolvedParams ({ vllm_sampling_params_obj := Option.some ⟨2, false⟩ } : VLLMConfig)
      Option.none []
      = SParams.fromDict (merged_params { vllm_sampling_params_obj := Option.some ⟨2, false⟩ }
          Option.none []) := rfl
  refine ⟨by rw [h1]; rfl, ?_⟩
  rw [h1]
  intro h
  exact SParams.noConfusion h

/-- C8, amended: when the configured pre-built sampling-params object is
truthy, it is handed to the client's generate call unchanged and the merging
of defaults, keyword options and the stop override is skipped entirely;
a falsy configured object instead triggers merging. -/
theorem truthy_sampling_params_passed_through (cfg : VLLMConfig) (o : PyObj)
    (clientGen : List String → SParams → List RequestOutput)
    (prompts : List String) (stop : Option (List String)) (kwargs : Dict)
    (hobj : cfg.vllm_sampling_params_obj = Option.some o) (ht : o.truthy = true) :
    resolvedParams cfg stop kwargs = SParams.prebuilt o
    ∧ generate cfg clientGen prompts stop kwargs =
        match extractGenerations (clientGen prompts (SParams.prebuilt o)) with
        | Except.ok gens => Except.ok (LLMResult.mk gens)
        | Except.error e => Except.error e := by
  have h1 : resolvedParams cfg stop kwargs = SParams.prebuilt o := by
    simp [resolvedParams, hobj, pyOptTruthy, ht]
  exact ⟨h1, by rw [generate, h1]⟩

/-- C8, witness for the amended theorem: a truthy pre-built object reaches
the echoing client untouched. -/
theorem truthy_sampling_params_passed_witness :
    resolvedParams { vllm_sampling_params_obj := Option.some ⟨9, true⟩ } Option.none []
        = SParams.prebuilt ⟨9, true⟩
    ∧ generate { vllm_sampling_params_obj := Option.some ⟨9, true⟩ } echoClient ["p"]
          Option.none [] =
        match extractGenerations (echoClient ["p"] (SParams.prebuilt ⟨9, true⟩)) with
        | Except.ok gens => Except.ok (LLMResult.mk gens)
        | Except.error e => Except.error e :=
  truthy_sampling_params_passed_through
    { vllm_sampling_params_obj := Option.some ⟨9, true⟩ } ⟨9, true⟩ echoClient ["p"]
    Option.none [] rfl rfl

/-- C10 (confirmed, implicit claim): both pre-built-override checks test
truthiness, not non-`None`-ness. A falsy non-`None` `vllm_obj` makes
`validate_environment` construct a fresh client instead of reusing the
object, and a falsy non-`None` `vllm_sampling_params_obj` makes `_generate`
perform field merging instead of using the supplied object. -/
theorem override_checks_test_truthiness :
    (∀ (cfg : VLLMConfig) (o : PyObj), cfg.vllm_obj = Option.some o → o.truthy = false →
      validate_environment true cfg = Except.ok (constructedClient cfg))
    ∧ (∀ (cfg : VLLMConfig) (o : PyObj) (stop : Option (List String)) (kwargs : Dict),
        cfg.vllm_sampling_params_obj = Option.some o → o.truthy = false →
        resolvedParams cfg stop kwargs = SParams.fromDict (merged_params cfg stop kwargs)) := by
  constructor
  · intro cfg o hobj hf
    simp [validate_environment, hobj, pyOptTruthy, hf]
  · intro cfg o stop kwargs hobj hf
    simp [resolvedParams, hobj, pyOptTruthy, hf]

/-- C10, witness: concrete falsy objects in both fields. -/
theorem override_checks_test_truthiness_witness :
    validate_environment true { vllm_obj := Option.some ⟨5, false⟩ }
        = Except.ok (constructedClient { vllm_obj := Option.some ⟨5, false⟩ })
    ∧ resolvedParams { vllm_sampling_params_obj := Option.some ⟨6, false⟩ } Option.none []
        = SParams.fromDict
            (merged_params { vllm_sampling_params_obj := Option.some ⟨6, false⟩ } Option.none []) :=
  ⟨override_checks_test_truthiness.1 { vllm_obj := Option.some ⟨5, false⟩ } ⟨5, false⟩ rfl rfl,
   override_checks_test_truthiness.2 { vllm_sampling_params_obj := Option.some ⟨6, false⟩ }
     ⟨6, false⟩ Option.none [] rfl rfl⟩

/-- C6 (confirmed against the spec-modelled inherited defaults):
`_invocation_params` always binds `logit_bias` to `None`, overriding any
inherited non-`None` value; it carries the api key, api base and model name
(whenever the inherited sampling defaults do not themselves bind those
keys), and every inherited sampling default other than `logit_bias` is
looked up unchanged. -/
theorem invocation_params_contract (c : VLLMOpenAIConfig) :
    dlookup "logit_bias" (invocation_params c) = Option.some PyVal.none
    ∧ ("api_key" ∉ dkeys c.base_default_params →
        dlookup "api_key" (invocation_params c) = Option.some c.openai_api_key)
    ∧ ("api_base" ∉ dkeys c.base_default_params →
        dlookup "api_base" (invocation_params c) = Option.some c.openai_api_base)
    ∧ ("model" ∉ dkeys c.base_default_params →
        dlookup "model" (invocation_params c) = Option.some (PyVal.str c.model_name))
    ∧ (∀ k : String, k ∈ dkeys c.base_default_params → k ≠ "logit_bias" →
        dlookup k (invocation_params c) = dlookup k c.base_default_params) := by
  refine ⟨?_, ?_, ?_, ?_, ?_⟩
  · exact dlookup_last "logit_bias"
      ([("model", PyVal.str c.model_name)]
        ++ [("api_key", c.openai_api_key), ("api_base", c.openai_api_base)]
        ++ c.base_default_params) PyVal.none
  · intro hk
    simp [invocation_params, dlookup_append_or, dlookup,
      dlookup_eq_none_of_not_mem _ _ hk]
  · intro hk
    simp [invocation_params, dlookup_append_or, dlookup,
      dlookup_eq_none_of_not_mem _ _ hk]
  · intro hk
    simp [invocation_params, dlookup_append_or, dlookup,
      dlookup_eq_none_of_not_mem _ _ hk]
  · intro k hk hne
    have hsome := dlookup_isSome_of_mem k _ hk
    rw [invocation_params, dlookup_append_or]
    have hlb : dlookup k [("logit_bias", PyVal.none)] = Option.none := by
      rw [dlookup]
      exact if_neg (fun h => hne h.symm)
    rw [hlb, Option.none_or, dlookup_append_or]
    cases hd : dlookup k c.base_default_params with
    | some v => rfl
    | none => rw [hd] at hsome; simp at hsome

/-- C6, witness: on `wOpenAICfg` the assembled map still reads `logit_bias`
as `None`, carries the api key, and passes `temperature` through. -/
theorem invocation_params_contract_witness :
    dlookup "logit_bias" (invocation_params wOpenAICfg) = Option.some PyVal.none
    ∧ dlookup "api_key" (invocation_params wOpenAICfg) = Option.some (PyVal.str "k")
    ∧ dlookup "temperature" (invocation_params wOpenAICfg)
        = dlookup "temperature" wOpenAICfg.base_default_params :=
  ⟨(invocation_params_contract wOpenAICfg).1,
   (invocation_params_contract wOpenAICfg).2.1 (by decide),
   (invocation_params_contract wOpenAICfg).2.2.2.2 "temperature" (by decide) (by decide)⟩

/-- C7, counterexample: the claim's "raises exactly when no line of the file
matches the pattern", with a line matching taken line-locally, is false of
the code. On the two-line file below no single line matches the version
pattern — the first line lacks a closing quote, the second lacks the literal
— yet `find_version` does not raise: the negated class `[^'\"]*` of the
regex consumes the newline, so the match anchored at line one closes at the
quote on line two and the captured version is `"1.2.3\ntail = "`. -/
theorem find_version_matches_across_lines :
    find_version "__version__ = \"1.2.3\ntail = \"x\"" = Except.ok "1.2.3\ntail = "
    ∧ splitLines ("__version__ = \"1.2.3\ntail = \"x\"").data
        = [("__version__ = \"1.2.3").data, ("tail = \"x\"").data]
    ∧ ∀ l ∈ ["__version__ = \"1.2.3", "tail = \"x\""], matchVersionAt l.data = Option.none := by
  exact ⟨rfl, by decide, by decide⟩

/-- C7, amended: `find_version` returns `"1.2.3"` when the first anchor the
multiline pattern matches at captures `1.2.3` (so in particular on a file
containing the well-formed line `__version__ = "1.2.3"` before any other
match), and it raises its `RuntimeError` exactly when the pattern matches at
NO line-start anchor of the file — a match anchors at a line start but may
run past the line's end. -/
theorem find_version_contract (contents : String) :
    (∀ t : List Char,
      (allAnchors contents.data).find? (fun u => (matchVersionAt u).isSome)
          = Option.some t →
      matchVersionAt t = Option.some ("1.2.3".data) →
      find_version contents = Except.ok "1.2.3")
    ∧ (find_version contents = Except.error noVersionMsg ↔
        ∀ t ∈ allAnchors contents.data, matchVersionAt t = Option.none) := by
  constructor
  · intro t hfind hcap
    have hfs := findSome?_of_find? _ _ hfind
    rw [find_version, (searchVersion_spec contents.data).1, hfs, hcap]
  · rw [find_version, (searchVersion_spec contents.data).1]
    cases h : (allAnchors contents.data).findSome? matchVersionAt with
    | some v =>
      constructor
      · intro hc; exact absurd hc (by simp)
      · intro hall
        have hn := List.findSome?_eq_none_iff.mpr hall
        rw [h] at hn
        exact absurd hn (by simp)
    | none =>
      constructor
      · intro _; exact List.findSome?_eq_none_iff.mp h
      · intro _; rfl

/-- C7, witness for the amended theorem: a file whose second line carries the
version (the first matching anchor is that line's start), and the empty
file, where no anchor matches and `find_version` errors. -/
theorem find_version_contract_witness :
    find_version "x = 1\n__version__ = \"1.2.3\"" = Except.ok "1.2.3"
    ∧ (find_version "" = Except.error noVersionMsg ↔
        ∀ t ∈ allAnchors ("" : String).data, matchVersionAt t = Option.none) :=
  ⟨(find_version_contract "x = 1\n__version__ = \"1.2.3\"").1
      (("__version__ = \"1.2.3\"").data) (by decide) (by decide),
   (find_version_contract "").2⟩
